import Mathlib

/-!
Verification of the Go data-lake orchestration program (`main.go`).

The program is a sequential AWS orchestration script: it ensures an S3
bucket exists, creates a Glue database, fetches NBA data over HTTP,
uploads it to S3 as newline-delimited JSON, creates a Glue table and
submits one Athena statement.  This file gives a shallow embedding of
the program and proves/refutes the frozen claims about it.

Modelling conventions:
* Decoded Go `interface \x7b \x7d` JSON values become the inductive `Json`.
  A Go `map[string]interface \x7b \x7d` is represented as an association list
  held in the key order `encoding/json` uses when marshalling a map
  (sorted keys), so `marshal` emits fields in stored order.
* External services (S3, Glue) are idealized state machines; every call
  the program issues is recorded in a trace so that frame claims
  ("no create call is issued") are statable.
* `log.Fatalf` is modelled as an outcome constructor that stops the run.
* Go panics (failed type assertions) are a distinct outcome constructor.
-/

/-- A decoded JSON value, as produced by Go `encoding/json` into an
`interface \x7b \x7d`: `nil`, `bool`, a number, `string`, `[]interface \x7b \x7d` or
`map[string]interface \x7b \x7d`.  Numbers are modelled as integers; no claim
depends on non-integral numeric values. -/
inductive Json where
  | null : Json
  | bool (b : Bool) : Json
  | num (n : Int) : Json
  | str (s : String) : Json
  | arr (elems : List Json) : Json
  | obj (fields : List (String × Json)) : Json

/-- A `Record` is one decoded `map[string]interface \x7b \x7d`, as an
association list in marshal key order. -/
abbrev Record := List (String × Json)

/-- Decimal digit character for `n % 10`, as emitted by a JSON
marshaller for integers. -/
def digitChar (n : Nat) : Char :=
  match n % 10 with
  | 0 => '0'
  | 1 => '1'
  | 2 => '2'
  | 3 => '3'
  | 4 => '4'
  | 5 => '5'
  | 6 => '6'
  | 7 => '7'
  | 8 => '8'
  | _ => '9'

/-- Lower-case hex digit character for `n % 16`, used in `\uXXXX`
escapes. -/
def hexDigit (n : Nat) : Char :=
  match n % 16 with
  | 0 => '0'
  | 1 => '1'
  | 2 => '2'
  | 3 => '3'
  | 4 => '4'
  | 5 => '5'
  | 6 => '6'
  | 7 => '7'
  | 8 => '8'
  | 9 => '9'
  | 10 => 'a'
  | 11 => 'b'
  | 12 => 'c'
  | 13 => 'd'
  | 14 => 'e'
  | _ => 'f'

/-- Decimal representation of a positive natural, most significant
digit first (accumulator form). -/
def natReprAux : Nat → List Char → List Char
  | 0, acc => acc
  | n + 1, acc => natReprAux ((n + 1) / 10) (digitChar ((n + 1) % 10) :: acc)
decreasing_by exact Nat.div_lt_self (Nat.succ_pos n) (by omega)

/-- Decimal representation of a natural number. -/
def natRepr (n : Nat) : List Char :=
  if n = 0 then ['0'] else natReprAux n []

/-- Decimal representation of an integer. -/
def intRepr (n : Int) : List Char :=
  if n < 0 then '-' :: natRepr n.natAbs else natRepr n.natAbs

/-- JSON string escaping of one character, following Go
`encoding/json.Marshal` (which HTML-escapes by default): quote,
backslash, newline, carriage return and tab get two-character escapes;
other control characters, angle brackets, ampersand and the line/
paragraph separators get `\uXXXX`; everything else passes through. -/
def escChar (c : Char) : List Char :=
  if c = '"' then ['\\', '"']
  else if c = '\\' then ['\\', '\\']
  else if c = '\n' then ['\\', 'n']
  else if c = '\r' then ['\\', 'r']
  else if c = '\t' then ['\\', 't']
  else if c.toNat < 32 then
    ['\\', 'u', '0', '0', hexDigit (c.toNat / 16), hexDigit (c.toNat % 16)]
  else if c = '<' then ['\\', 'u', '0', '0', '3', 'c']
  else if c = '>' then ['\\', 'u', '0', '0', '3', 'e']
  else if c = '&' then ['\\', 'u', '0', '0', '2', '6']
  else if c.toNat = 0x2028 then ['\\', 'u', '2', '0', '2', '8']
  else if c.toNat = 0x2029 then ['\\', 'u', '2', '0', '2', '9']
  else [c]

/-- Escape a whole string body (no surrounding quotes). -/
def escapeString (s : String) : List Char :=
  s.data.foldr (fun c acc => escChar c ++ acc) []

/-- The opening-brace character (code 123). -/
def lBrace : Char := Char.ofNat 123

/-- The closing-brace character (code 125). -/
def rBrace : Char := Char.ofNat 125

mutual

/-- `json.Marshal` of a decoded value, as a character list.  Object
fields are emitted in stored order (the model stores them in Go's
marshal key order). -/
def marshal : Json → List Char
  | .null => "null".data
  | .bool bv => if bv then "true".data else "false".data
  | .num n => intRepr n
  | .str s => '"' :: (escapeString s ++ ['"'])
  | .arr xs => '[' :: (marshalList xs ++ [']'])
  | .obj fs => lBrace :: (marshalFields fs ++ [rBrace])

/-- Comma-separated marshalling of array elements. -/
def marshalList : List Json → List Char
  | [] => []
  | [x] => marshal x
  | x :: y :: rest => marshal x ++ ',' :: marshalList (y :: rest)

/-- Comma-separated marshalling of object fields. -/
def marshalFields : List (String × Json) → List Char
  | [] => []
  | [(k, v)] => '"' :: (escapeString k ++ ['"', ':'] ++ marshal v)
  | (k, v) :: kv :: rest =>
    '"' :: (escapeString k ++ ['"', ':'] ++ marshal v) ++ ',' :: marshalFields (kv :: rest)

end

/-- The possible outcomes of `fetchNBAData`: a decoded batch, a Go
`error` value, or a process crash from a failed type assertion. -/
inductive FetchResult where
  | ok (batch : List Record) : FetchResult
  | err (msg : String) : FetchResult
  | panicked : FetchResult

/-- The `for _, item := range data` loop of `fetchNBAData`: each
element is cast with the unchecked assertion
`item.(map[string]interface \x7b \x7d)`, which panics on a non-object
element. -/
def fetchArrayLoop : List Json → List Record → FetchResult
  | [], acc => .ok acc.reverse
  | .obj f :: rest, acc => fetchArrayLoop rest (f :: acc)
  | _ :: _, _ => .panicked

/-- The `switch data := result.(type)` of `fetchNBAData`: an array is
folded element-wise, a single object becomes a one-element batch, and
every other top-level shape is the "unexpected JSON structure" error. -/
def decodeNBAPayload : Json → FetchResult
  | .arr xs => fetchArrayLoop xs []
  | .obj f => .ok [f]
  | _ => .err "unexpected JSON structure"

/-- `fetchNBAData` after the transport phase, as a function of the HTTP
status code, the raw body text, and the result of the JSON decoder
(`json.NewDecoder(resp.Body).Decode`, an external library modelled as
an input).  A non-200 status yields the `API returned %d: %s` error; a
decoder error is returned as-is; otherwise the payload switch runs. -/
def fetchNBAData (statusCode : Nat) (bodyText : String)
    (decoded : Except String Json) : FetchResult :=
  if statusCode ≠ 200 then
    .err ("API returned " ++ Nat.repr statusCode ++ ": " ++ bodyText)
  else
    match decoded with
    | .error e => .err e
    | .ok j => decodeNBAPayload j

/-- The fixed bucket name from the program's globals. -/
def bucketName : String := "sports-analytics-data-lake3"

/-- The fixed Glue database name from the program's globals. -/
def glueDBName : String := "glue_nba_data_lake"

/-- `convertToLineDelimitedJSON`: builds the upload body by appending
`string(jsonData) + "\n"` for each record to a string builder. -/
def convertToLineDelimitedJSON (data : List Record) : String :=
  data.foldl (fun sb item => sb ++ String.mk (marshal (.obj item)) ++ "\n") ""

/-- The state of the idealized S3 service: the set of existing buckets
and the stored objects (bucket, key, body). -/
structure S3State where
  buckets : List String
  objects : List (String × String × String)
deriving DecidableEq, Repr

/-- One S3 API call issued by the program, recorded for frame claims. -/
inductive S3Call where
  | headBucket (name : String) : S3Call
  | createBucket (name : String) : S3Call
  | putObject (bucket key body : String) (contentLength : Nat) : S3Call
deriving DecidableEq, Repr

/-- Outcome of the `HeadBucket` existence probe. -/
inductive HeadOutcome where
  | success : HeadOutcome
  | notFound : HeadOutcome
  | otherError (msg : String) : HeadOutcome
deriving DecidableEq, Repr

/-- The idealized S3 `HeadBucket`: succeeds exactly when the bucket
exists, otherwise reports the not-found signal. -/
def headBucketSvc (st : S3State) (name : String) : HeadOutcome :=
  if name ∈ st.buckets then .success else .notFound

/-- The idealized S3 `CreateBucket`: records the bucket. -/
def createBucketSvc (st : S3State) (name : String) : S3State :=
  { st with buckets := name :: st.buckets }

/-- The branch structure of `createS3Bucket` as a function of the probe
outcome: probe success is an immediate no-op return, the not-found
signal triggers the create call, and any other probe failure is wrapped
and returned with no create call.  Returns the result, the updated
service state, and the trace of calls issued. -/
def createS3BucketWith (probe : HeadOutcome) (st : S3State) :
    Except String Unit × S3State × List S3Call :=
  match probe with
  | .success => (.ok (), st, [.headBucket bucketName])
  | .notFound =>
    (.ok (), createBucketSvc st bucketName,
      [.headBucket bucketName, .createBucket bucketName])
  | .otherError e =>
    (.error ("failed to check if bucket exists: " ++ e), st,
      [.headBucket bucketName])

/-- `createS3Bucket` run against the idealized S3 service. -/
def createS3Bucket (st : S3State) : Except String Unit × S3State × List S3Call :=
  createS3BucketWith (headBucketSvc st bucketName) st

/-- `uploadDataToS3`: converts the batch to line-delimited JSON,
computes the byte length explicitly, and issues one `PutObject` with
key `nba_data.json`.  The idealized put always succeeds. -/
def uploadDataToS3 (st : S3State) (bucket : String) (data : List Record) :
    Except String Unit × S3State × List S3Call :=
  let jsonData := convertToLineDelimitedJSON data
  let contentLength := jsonData.length
  (.ok (),
    { st with objects := (bucket, "nba_data.json", jsonData) :: st.objects },
    [.putObject bucket "nba_data.json" jsonData contentLength])

/-- The guarded upload in `main`: `if len(nbaData) > 0` wraps the
`uploadDataToS3` call, so an empty batch issues nothing. -/
def mainUploadStep (st : S3State) (data : List Record) :
    Except String Unit × S3State × List S3Call :=
  if data.length > 0 then uploadDataToS3 st bucketName data
  else (.ok (), st, [])

/-- The state of the idealized Glue catalog: existing database names. -/
structure GlueState where
  databases : List String
deriving DecidableEq, Repr

/-- One Glue API call issued by the program. -/
inductive GlueCall where
  | createDatabase (name : String) : GlueCall
  | getDatabase (name : String) : GlueCall
  | createTable (db name : String) : GlueCall
deriving DecidableEq, Repr

/-- The idealized Glue `CreateDatabase`: a conflict error when the
database already exists, otherwise it is recorded. -/
def createDatabaseSvc (st : GlueState) (name : String) :
    Except String GlueState :=
  if name ∈ st.databases then .error "AlreadyExistsException: Database already exists."
  else .ok { databases := name :: st.databases }

/-- `createGlueDatabase`: unconditionally issues one `CreateDatabase`
call (no existence probe) and returns the service error verbatim. -/
def createGlueDatabase (st : GlueState) :
    Except String Unit × GlueState × List GlueCall :=
  match createDatabaseSvc st glueDBName with
  | .ok st2 => (.ok (), st2, [.createDatabase glueDBName])
  | .error e => (.error e, st, [.createDatabase glueDBName])

/-- Outcome of the `init` function: a fatal log message or success. -/
inductive InitOutcome where
  | fatalMsg (msg : String) : InitOutcome
  | done : InitOutcome
deriving DecidableEq, Repr

/-- The program's `init`: `godotenv.Load` must succeed (its success is
an input: it is an external library reading the filesystem), then each
of the two environment variables must be non-empty, checked in order,
each failure being a distinct `log.Fatal`. -/
def initModel (envFileLoads : Bool) (apiKey nbaEndpoint : String) : InitOutcome :=
  if !envFileLoads then .fatalMsg "Error loading .env file"
  else if apiKey = "" then .fatalMsg "SPORTS_DATA_API_KEY is not set"
  else if nbaEndpoint = "" then .fatalMsg "NBA_ENDPOINT is not set"
  else .done

/-- The steps of `main`, in source order, used as trace entries. -/
inductive StepTag where
  | cfgLoad : StepTag
  | bucket : StepTag
  | pause : StepTag
  | glueDb : StepTag
  | fetch : StepTag
  | upload : StepTag
  | table : StepTag
  | athena : StepTag
deriving DecidableEq, Repr

/-- Final outcome of one run of `main`: a `log.Fatalf` with its stage
message, or the completion log line. -/
inductive MainOutcome where
  | fatalStage (stage msg : String) : MainOutcome
  | complete : MainOutcome
deriving DecidableEq, Repr

/-- The environment's answer to each step of `main`.  `main` itself
adds no logic beyond sequencing and error checks, so its semantics is a
function of these outcomes. -/
structure StepResults where
  cfgLoad : Except String Unit
  bucket : Except String Unit
  glueDb : Except String Unit
  fetch : Except String (List Record)
  upload : Except String Unit
  table : Except String Unit
  athena : Except String Unit

/-- `main` as a trace semantics: each step runs in source order, an
error at any step is an immediate `log.Fatalf` with that step's message
(no later step runs), the 5-second pause follows bucket creation, and
the upload step is skipped when the fetched batch is empty. -/
def mainModel (r : StepResults) : List StepTag × MainOutcome :=
  match r.cfgLoad with
  | .error e => ([.cfgLoad], .fatalStage "Failed to load configuration" e)
  | .ok _ =>
  match r.bucket with
  | .error e => ([.cfgLoad, .bucket], .fatalStage "Failed to create S3 bucket" e)
  | .ok _ =>
  match r.glueDb with
  | .error e =>
    ([.cfgLoad, .bucket, .pause, .glueDb], .fatalStage "Failed to create Glue database" e)
  | .ok _ =>
  match r.fetch with
  | .error e =>
    ([.cfgLoad, .bucket, .pause, .glueDb, .fetch], .fatalStage "Failed to fetch NBA data" e)
  | .ok nbaData =>
  if nbaData.length > 0 then
    match r.upload with
    | .error e =>
      ([.cfgLoad, .bucket, .pause, .glueDb, .fetch, .upload],
        .fatalStage "Failed to upload data to S3" e)
    | .ok _ =>
    match r.table with
    | .error e =>
      ([.cfgLoad, .bucket, .pause, .glueDb, .fetch, .upload, .table],
        .fatalStage "Failed to create Glue table" e)
    | .ok _ =>
    match r.athena with
    | .error e =>
      ([.cfgLoad, .bucket, .pause, .glueDb, .fetch, .upload, .table, .athena],
        .fatalStage "Failed to configure Athena" e)
    | .ok _ =>
      ([.cfgLoad, .bucket, .pause, .glueDb, .fetch, .upload, .table, .athena], .complete)
  else
    match r.table with
    | .error e =>
      ([.cfgLoad, .bucket, .pause, .glueDb, .fetch, .table],
        .fatalStage "Failed to create Glue table" e)
    | .ok _ =>
    match r.athena with
    | .error e =>
      ([.cfgLoad, .bucket, .pause, .glueDb, .fetch, .table, .athena],
        .fatalStage "Failed to configure Athena" e)
    | .ok _ =>
      ([.cfgLoad, .bucket, .pause, .glueDb, .fetch, .table, .athena], .complete)

/-- The whole process: `init` runs before `main`; a fatal in `init`
stops the process with an empty step trace (in particular no network
call, since every network call belongs to a step of `main`). -/
def processModel (envFileLoads : Bool) (apiKey nbaEndpoint : String)
    (r : StepResults) : List StepTag × MainOutcome :=
  match initModel envFileLoads apiKey nbaEndpoint with
  | .fatalMsg m => ([], .fatalStage "init" m)
  | .done => mainModel r

/-- Splits a character list at every occurrence of `sep`; the result
always has one more piece than there are separators, so a terminated
line list such as `a\nb\n` splits as `[a, b, []]`. -/
def splitCh (sep : Char) : List Char → List (List Char)
  | [] => [[]]
  | c :: cs =>
    match splitCh sep cs with
    | [] => [[]]
    | piece :: rest =>
      if c = sep then [] :: piece :: rest else (c :: piece) :: rest

/-- Boolean test for the Go type assertion target
`map[string]interface \x7b \x7d`: is this decoded value an object? -/
def Json.isObjB : Json → Bool
  | .obj _ => true
  | _ => false

/-- The steps of `main` in source order (the pause sits between bucket
creation and database creation). -/
def canonicalOrder : List StepTag :=
  [.cfgLoad, .bucket, .pause, .glueDb, .fetch, .upload, .table, .athena]

theorem digitChar_ne_nl (n : Nat) : digitChar n ≠ '\n' := by
  unfold digitChar
  split <;> decide

theorem hexDigit_ne_nl (n : Nat) : hexDigit n ≠ '\n' := by
  unfold hexDigit
  split <;> decide

theorem natReprAux_no_nl (n : Nat) : ∀ acc, '\n' ∉ acc → '\n' ∉ natReprAux n acc := by
  induction n using Nat.strong_induction_on with
  | _ n ih =>
    intro acc hacc
    match n with
    | 0 => rw [natReprAux]; exact hacc
    | m + 1 =>
      rw [natReprAux]
      refine ih ((m + 1) / 10) (Nat.div_lt_self (Nat.succ_pos m) (by omega)) _ ?_
      intro hmem
      rcases List.mem_cons.mp hmem with h | h
      · exact digitChar_ne_nl _ h.symm
      · exact hacc h

theorem natRepr_no_nl (n : Nat) : '\n' ∉ natRepr n := by
  unfold natRepr
  split
  · decide
  · exact natReprAux_no_nl n [] (by decide)

theorem intRepr_no_nl (n : Int) : '\n' ∉ intRepr n := by
  unfold intRepr
  split
  · intro h
    rcases List.mem_cons.mp h with h | h
    · exact absurd h (by decide)
    · exact natRepr_no_nl _ h
  · exact natRepr_no_nl _

set_option maxHeartbeats 1000000 in
theorem escChar_no_nl (c : Char) : '\n' ∉ escChar c := by
  unfold escChar
  split_ifs with h1 h2 h3 h4 h5 h6 h7 h8 h9 h10 h11 <;> intro hmem <;>
    simp only [List.mem_cons, List.not_mem_nil, or_false] at hmem
  · rcases hmem with h | h <;> exact absurd h (by decide)
  · rcases hmem with h | h <;> exact absurd h (by decide)
  · rcases hmem with h | h <;> exact absurd h (by decide)
  · rcases hmem with h | h <;> exact absurd h (by decide)
  · rcases hmem with h | h <;> exact absurd h (by decide)
  · rcases hmem with h | h | h | h | h | h
    · exact absurd h (by decide)
    · exact absurd h (by decide)
    · exact absurd h (by decide)
    · exact absurd h (by decide)
    · exact hexDigit_ne_nl _ h.symm
    · exact hexDigit_ne_nl _ h.symm
  · rcases hmem with h | h | h | h | h | h <;> exact absurd h (by decide)
  · rcases hmem with h | h | h | h | h | h <;> exact absurd h (by decide)
  · rcases hmem with h | h | h | h | h | h <;> exact absurd h (by decide)
  · rcases hmem with h | h | h | h | h | h <;> exact absurd h (by decide)
  · rcases hmem with h | h | h | h | h | h <;> exact absurd h (by decide)
  · exact h3 hmem.symm

theorem escapeString_no_nl (s : String) : '\n' ∉ escapeString s := by
  unfold escapeString
  induction s.data with
  | nil => simp
  | cons c cs ih =>
    simp only [List.foldr_cons]
    intro h
    rcases List.mem_append.mp h with h | h
    · exact escChar_no_nl c h
    · exact ih h

mutual

theorem marshal_no_nl : (j : Json) → '\n' ∉ marshal j
  | .null => by rw [marshal]; decide
  | .bool bv => by rw [marshal]; cases bv <;> decide
  | .num n => by rw [marshal]; exact intRepr_no_nl n
  | .str s => by
    rw [marshal]
    intro h
    rcases List.mem_cons.mp h with h | h
    · exact absurd h (by decide)
    · rcases List.mem_append.mp h with h | h
      · exact escapeString_no_nl s h
      · exact absurd h (by decide)
  | .arr xs => by
    rw [marshal]
    intro h
    rcases List.mem_cons.mp h with h | h
    · exact absurd h (by decide)
    · rcases List.mem_append.mp h with h | h
      · exact marshalList_no_nl xs h
      · exact absurd h (by decide)
  | .obj fs => by
    rw [marshal]
    intro h
    rcases List.mem_cons.mp h with h | h
    · exact absurd h (by decide)
    · rcases List.mem_append.mp h with h | h
      · exact marshalFields_no_nl fs h
      · exact absurd h (by decide)

theorem marshalList_no_nl : (xs : List Json) → '\n' ∉ marshalList xs
  | [] => by simp [marshalList]
  | [x] => by
    simp only [marshalList]
    exact marshal_no_nl x
  | x :: y :: rest => by
    simp only [marshalList]
    intro h
    rcases List.mem_append.mp h with h | h
    · exact marshal_no_nl x h
    · rcases List.mem_cons.mp h with h | h
      · exact absurd h (by decide)
      · exact marshalList_no_nl (y :: rest) h

theorem marshalFields_no_nl : (fs : List (String × Json)) → '\n' ∉ marshalFields fs
  | [] => by simp [marshalFields]
  | [(k, v)] => by
    simp only [marshalFields]
    intro h
    rcases List.mem_cons.mp h with h | h
    · exact absurd h (by decide)
    · rcases List.mem_append.mp h with h | h
      · rcases List.mem_append.mp h with h | h
        · exact escapeString_no_nl k h
        · rcases List.mem_cons.mp h with h | h
          · exact absurd h (by decide)
          · exact absurd (List.mem_singleton.mp h) (by decide)
      · exact marshal_no_nl v h
  | (k, v) :: kv :: rest => by
    simp only [marshalFields]
    intro h
    rcases List.mem_append.mp h with h | h
    · rcases List.mem_cons.mp h with h | h
      · exact absurd h (by decide)
      · rcases List.mem_append.mp h with h | h
        · rcases List.mem_append.mp h with h | h
          · exact escapeString_no_nl k h
          · rcases List.mem_cons.mp h with h | h
            · exact absurd h (by decide)
            · exact absurd (List.mem_singleton.mp h) (by decide)
        · exact marshal_no_nl v h
    · rcases List.mem_cons.mp h with h | h
      · exact absurd h (by decide)
      · exact marshalFields_no_nl (kv :: rest) h

end

theorem convert_foldl_data (data : List Record) :
    ∀ s : String,
      (data.foldl (fun sb item => sb ++ String.mk (marshal (.obj item)) ++ "\n") s).data
        = s.data ++ (data.map (fun r => marshal (.obj r) ++ ['\n'])).flatten := by
  induction data with
  | nil => intro s; simp
  | cons r rest ih =>
    intro s
    simp only [List.foldl_cons, List.map_cons, List.flatten_cons]
    rw [ih]
    simp [String.data_append]

theorem convertToLineDelimitedJSON_data (data : List Record) :
    (convertToLineDelimitedJSON data).data
      = (data.map (fun r => marshal (.obj r) ++ ['\n'])).flatten := by
  unfold convertToLineDelimitedJSON
  rw [convert_foldl_data]
  rfl

theorem splitCh_ne_nil (sep : Char) (cs : List Char) : splitCh sep cs ≠ [] := by
  induction cs with
  | nil => simp [splitCh]
  | cons c cs ih =>
    simp only [splitCh]
    rcases hs : splitCh sep cs with _ | ⟨p, r⟩
    · simp
    · dsimp only
      split <;> simp

theorem splitCh_append (sep : Char) (xs rest : List Char) (h : sep ∉ xs) :
    splitCh sep (xs ++ sep :: rest) = xs :: splitCh sep rest := by
  induction xs with
  | nil =>
    simp only [List.nil_append, splitCh]
    rcases hs : splitCh sep rest with _ | ⟨p, r⟩
    · exact absurd hs (splitCh_ne_nil sep rest)
    · simp
  | cons c cs ih =>
    have hc : c ≠ sep := fun hceq => h (hceq ▸ List.mem_cons_self c cs)
    have hcs : sep ∉ cs := fun hm => h (List.mem_cons_of_mem c hm)
    have hstep : (c :: cs) ++ sep :: rest = c :: (cs ++ sep :: rest) := rfl
    rw [hstep, splitCh, ih hcs]
    simp [hc]

theorem splitCh_terminated (sep : Char) (pieces : List (List Char))
    (h : ∀ p ∈ pieces, sep ∉ p) :
    splitCh sep ((pieces.map (fun p => p ++ [sep])).flatten) = pieces ++ [[]] := by
  induction pieces with
  | nil => simp [splitCh]
  | cons p rest ih =>
    simp only [List.map_cons, List.flatten_cons, List.append_assoc, List.singleton_append]
    rw [splitCh_append sep p _ (h p (List.mem_cons_self p rest)),
      ih (fun q hq => h q (List.mem_cons_of_mem p hq))]
    rfl

theorem fetchArrayLoop_all_obj (xs : List Json) :
    ∀ acc, (∀ x ∈ xs, x.isObjB = true) →
      ∃ batch, fetchArrayLoop xs acc = .ok batch ∧
        batch.length = acc.length + xs.length := by
  induction xs with
  | nil =>
    intro acc _
    exact ⟨acc.reverse, rfl, by simp⟩
  | cons x rest ih =>
    intro acc h
    have hx := h x (List.mem_cons_self x rest)
    cases x with
    | obj f =>
      obtain ⟨batch, h1, h2⟩ := ih (f :: acc) (fun y hy => h y (List.mem_cons_of_mem _ hy))
      refine ⟨batch, ?_, ?_⟩
      · rw [fetchArrayLoop]
        exact h1
      · simp only [List.length_cons] at h2 ⊢
        omega
    | null => simp [Json.isObjB] at hx
    | bool b => simp [Json.isObjB] at hx
    | num n => simp [Json.isObjB] at hx
    | str s => simp [Json.isObjB] at hx
    | arr ys => simp [Json.isObjB] at hx

/-- **C1.** For a successful (HTTP 200) response, `fetchNBAData` turns a
top-level JSON array of N objects into a batch of exactly N records, a
single top-level JSON object into a batch of exactly 1 record, and any
other top-level JSON shape (string, number, boolean or null) into the
"unexpected JSON structure" error. -/
theorem fetchNBAData_shape (bodyText : String) :
    (∀ xs : List Json, (∀ x ∈ xs, x.isObjB = true) →
      ∃ batch, fetchNBAData 200 bodyText (.ok (.arr xs)) = .ok batch ∧
        batch.length = xs.length) ∧
    (∀ f : Record, fetchNBAData 200 bodyText (.ok (.obj f)) = .ok [f]) ∧
    (∀ s, fetchNBAData 200 bodyText (.ok (.str s)) = .err "unexpected JSON structure") ∧
    (∀ n, fetchNBAData 200 bodyText (.ok (.num n)) = .err "unexpected JSON structure") ∧
    (∀ b, fetchNBAData 200 bodyText (.ok (.bool b)) = .err "unexpected JSON structure") ∧
    fetchNBAData 200 bodyText (.ok .null) = .err "unexpected JSON structure" := by
  refine ⟨?_, ?_, ?_, ?_, ?_, ?_⟩
  · intro xs h
    obtain ⟨batch, h1, h2⟩ := fetchArrayLoop_all_obj xs [] h
    refine ⟨batch, ?_, by simpa using h2⟩
    simpa [fetchNBAData, decodeNBAPayload] using h1
  · intro f; rfl
  · intro s; rfl
  · intro n; rfl
  · intro b; cases b <;> rfl
  · rfl

theorem fetchNBAData_shape_witness :
    ∃ batch,
      fetchNBAData 200 "" (.ok (.arr [.obj [("id", .str "1")], .obj []])) = .ok batch ∧
        batch.length = 2 :=
  (fetchNBAData_shape "").1 [.obj [("id", .str "1")], .obj []] (by decide)

/-- **C2.** `convertToLineDelimitedJSON` produces exactly one
newline-terminated line per record, in the batch's original order, each
line being the JSON-object serialization of the corresponding record
(hence independently parseable, since `marshal` emits no raw newline);
in particular the two-record example batch serializes to
`\x7b"id":"1","name":"A"\x7d\n\x7b"id":"2","name":"B"\x7d\n`. -/
theorem convertToLineDelimitedJSON_one_line_per_record :
    (∀ data : List Record,
      splitCh '\n' (convertToLineDelimitedJSON data).data
        = data.map (fun r => marshal (.obj r)) ++ [[]]) ∧
    convertToLineDelimitedJSON
        [[("id", .str "1"), ("name", .str "A")], [("id", .str "2"), ("name", .str "B")]]
      = "\x7b\"id\":\"1\",\"name\":\"A\"\x7d\n\x7b\"id\":\"2\",\"name\":\"B\"\x7d\n" := by
  constructor
  · intro data
    rw [convertToLineDelimitedJSON_data]
    have hmap : data.map (fun r => marshal (.obj r) ++ ['\n'])
        = (data.map (fun r => marshal (.obj r))).map (fun p => p ++ ['\n']) := by
      simp [List.map_map]
    rw [hmap, splitCh_terminated]
    intro p hp
    rcases List.mem_map.mp hp with ⟨r, _, rfl⟩
    exact marshal_no_nl _
  · rfl

/-- **C4.** A response with any non-200 status makes `fetchNBAData`
return an error (never a batch) whose message contains the decimal
status code and the response body text verbatim. -/
theorem fetchNBAData_non200_error (statusCode : Nat) (bodyText : String)
    (decoded : Except String Json) (h : statusCode ≠ 200) :
    ∃ m, fetchNBAData statusCode bodyText decoded = .err m ∧
      (∃ p q, m = p ++ Nat.repr statusCode ++ q) ∧
      (∃ p q, m = p ++ bodyText ++ q) := by
  refine ⟨"API returned " ++ Nat.repr statusCode ++ ": " ++ bodyText, ?_,
    ⟨"API returned ", ": " ++ bodyText, ?_⟩,
    ⟨"API returned " ++ Nat.repr statusCode ++ ": ", "", ?_⟩⟩
  · simp [fetchNBAData, h]
  · rw [String.append_assoc, String.append_assoc]
  · rw [String.append_empty]

theorem fetchNBAData_non200_error_witness :
    ∃ m, fetchNBAData 401 "Unauthorized" (.error "eof") = .err m ∧
      (∃ p q, m = p ++ Nat.repr 401 ++ q) ∧
      (∃ p q, m = p ++ "Unauthorized" ++ q) :=
  fetchNBAData_non200_error 401 "Unauthorized" (.error "eof") (by decide)

/-- **C9.** When the decoded top-level value is an array with a
non-object element (here `[1,2,3]`), `fetchNBAData` does not produce an
error value or a batch: the unchecked type assertion panics. -/
theorem fetchNBAData_array_nonobject_panics :
    fetchNBAData 200 "" (.ok (.arr [.num 1, .num 2, .num 3])) = .panicked ∧
    (∀ msg, fetchNBAData 200 "" (.ok (.arr [.num 1, .num 2, .num 3])) ≠ .err msg) ∧
    (∀ batch, fetchNBAData 200 "" (.ok (.arr [.num 1, .num 2, .num 3])) ≠ .ok batch) := by
  have hp : fetchNBAData 200 "" (.ok (.arr [.num 1, .num 2, .num 3])) = .panicked := rfl
  refine ⟨hp, ?_, ?_⟩
  · intro msg h
    rw [hp] at h
    exact FetchResult.noConfusion h
  · intro batch h
    rw [hp] at h
    exact FetchResult.noConfusion h

/-- **C3.** `createS3Bucket` is idempotent: the existence probe comes
first and a successful probe returns without a create call; the
not-found signal triggers the create call; any other probe failure is
propagated as an error with no create call.  Two consecutive runs from
any state succeed, create the bucket exactly once when it was absent
(zero times when present), and the second run issues no create call. -/
theorem createS3Bucket_idempotent :
    (∀ st : S3State,
      (createS3Bucket st).1 = .ok () ∧
      (createS3Bucket (createS3Bucket st).2.1).1 = .ok () ∧
      bucketName ∈ (createS3Bucket st).2.1.buckets ∧
      (createS3Bucket (createS3Bucket st).2.1).2.1 = (createS3Bucket st).2.1 ∧
      ((createS3Bucket st).2.2 ++ (createS3Bucket (createS3Bucket st).2.1).2.2).count
          (S3Call.createBucket bucketName)
        = (if bucketName ∈ st.buckets then 0 else 1) ∧
      S3Call.createBucket bucketName ∉ (createS3Bucket (createS3Bucket st).2.1).2.2) ∧
    (∀ st : S3State,
      createS3BucketWith .success st = (.ok (), st, [.headBucket bucketName])) ∧
    (∀ (st : S3State) (e : String),
      (createS3BucketWith (.otherError e) st).1
          = .error ("failed to check if bucket exists: " ++ e) ∧
      S3Call.createBucket bucketName ∉ (createS3BucketWith (.otherError e) st).2.2) ∧
    (∀ st : S3State, headBucketSvc st bucketName = .notFound →
      S3Call.createBucket bucketName ∈ (createS3Bucket st).2.2) := by
  refine ⟨?_, ?_, ?_, ?_⟩
  · intro st
    by_cases hb : bucketName ∈ st.buckets
    · simp [createS3Bucket, createS3BucketWith, headBucketSvc, hb, List.count_cons]
    · simp [createS3Bucket, createS3BucketWith, headBucketSvc, createBucketSvc, hb,
        List.count_cons]
  · intro st
    rfl
  · intro st e
    refine ⟨rfl, ?_⟩
    intro hmem
    simp [createS3BucketWith] at hmem
  · intro st h
    simp [createS3Bucket, h, createS3BucketWith, createBucketSvc]

theorem createS3Bucket_idempotent_witness :
    S3Call.createBucket bucketName ∈ (createS3Bucket ⟨[], []⟩).2.2 :=
  createS3Bucket_idempotent.2.2.2 ⟨[], []⟩ rfl

/-- **C5.** An empty fetched batch makes the upload step a no-op: the
guarded step issues no S3 call, returns success, and the run continues
through the remaining steps to completion. -/
theorem emptyBatch_upload_noop :
    (∀ st : S3State, mainUploadStep st [] = (.ok (), st, [])) ∧
    (∀ r : StepResults, r.cfgLoad = .ok () → r.bucket = .ok () → r.glueDb = .ok () →
      r.fetch = .ok [] → r.table = .ok () → r.athena = .ok () →
      mainModel r = ([.cfgLoad, .bucket, .pause, .glueDb, .fetch, .table, .athena],
        .complete)) := by
  constructor
  · intro st
    rfl
  · intro r h1 h2 h3 h4 h5 h6
    simp [mainModel, h1, h2, h3, h4, h5, h6]

theorem emptyBatch_upload_noop_witness :
    mainUploadStep ⟨[], []⟩ [] = (.ok (), ⟨[], []⟩, []) ∧
    mainModel ⟨.ok (), .ok (), .ok (), .ok [], .ok (), .ok (), .ok ()⟩
      = ([.cfgLoad, .bucket, .pause, .glueDb, .fetch, .table, .athena], .complete) :=
  ⟨emptyBatch_upload_noop.1 ⟨[], []⟩,
    emptyBatch_upload_noop.2 ⟨.ok (), .ok (), .ok (), .ok [], .ok (), .ok (), .ok ()⟩
      rfl rfl rfl rfl rfl rfl⟩

/-- **C6.** With a loadable .env file, an empty value for either
required variable makes `init` terminate the process fatally with the
message naming the missing variable, with an empty step trace (hence
before any network call). -/
theorem missing_config_fatal (apiKeyV nbaEndpointV : String) (r : StepResults)
    (h : apiKeyV = "" ∨ nbaEndpointV = "") :
    ∃ m, processModel true apiKeyV nbaEndpointV r = ([], .fatalStage "init" m) ∧
      ((apiKeyV = "" ∧ m = "SPORTS_DATA_API_KEY is not set") ∨
        (apiKeyV ≠ "" ∧ nbaEndpointV = "" ∧ m = "NBA_ENDPOINT is not set")) := by
  by_cases hk : apiKeyV = ""
  · refine ⟨"SPORTS_DATA_API_KEY is not set", ?_, Or.inl ⟨hk, rfl⟩⟩
    simp [processModel, initModel, hk]
  · rcases h with hcontra | he
    · exact absurd hcontra hk
    · refine ⟨"NBA_ENDPOINT is not set", ?_, Or.inr ⟨hk, he, rfl⟩⟩
      simp [processModel, initModel, hk, he]

theorem missing_config_fatal_witness :
    ∃ m, processModel true "" "http://example.com/nba"
        ⟨.ok (), .ok (), .ok (), .ok [], .ok (), .ok (), .ok ()⟩
      = ([], .fatalStage "init" m) ∧
      (("" = "" ∧ m = "SPORTS_DATA_API_KEY is not set") ∨
        (("" : String) ≠ "" ∧ "http://example.com/nba" = "" ∧
          m = "NBA_ENDPOINT is not set")) :=
  missing_config_fatal "" "http://example.com/nba"
    ⟨.ok (), .ok (), .ok (), .ok [], .ok (), .ok (), .ok ()⟩ (Or.inl rfl)

/-- **C8.** `createGlueDatabase` issues exactly one unconditional
create-database call and never an existence probe; it succeeds on a
fresh catalog, surfaces the service conflict error when the database
already exists, and therefore errors on the second of two consecutive
runs: it is not idempotent. -/
theorem createGlueDatabase_not_idempotent :
    (∀ st : GlueState, (createGlueDatabase st).2.2 = [.createDatabase glueDBName]) ∧
    (∀ st : GlueState, GlueCall.getDatabase glueDBName ∉ (createGlueDatabase st).2.2) ∧
    (∀ st : GlueState, glueDBName ∉ st.databases →
      (createGlueDatabase st).1 = .ok () ∧
        glueDBName ∈ (createGlueDatabase st).2.1.databases) ∧
    (∀ st : GlueState, glueDBName ∈ st.databases →
      (createGlueDatabase st).1 = .error "AlreadyExistsException: Database already exists.") ∧
    (∀ st : GlueState, glueDBName ∉ st.databases →
      (createGlueDatabase (createGlueDatabase st).2.1).1
        = .error "AlreadyExistsException: Database already exists.") := by
  refine ⟨?_, ?_, ?_, ?_, ?_⟩
  · intro st
    by_cases hm : glueDBName ∈ st.databases <;>
      simp [createGlueDatabase, createDatabaseSvc, hm]
  · intro st
    by_cases hm : glueDBName ∈ st.databases <;>
      simp [createGlueDatabase, createDatabaseSvc, hm]
  · intro st h
    simp [createGlueDatabase, createDatabaseSvc, h]
  · intro st h
    simp [createGlueDatabase, createDatabaseSvc, h]
  · intro st h
    simp [createGlueDatabase, createDatabaseSvc, h]

theorem createGlueDatabase_not_idempotent_witness :
    (createGlueDatabase (createGlueDatabase ⟨[]⟩).2.1).1
      = .error "AlreadyExistsException: Database already exists." :=
  createGlueDatabase_not_idempotent.2.2.2.2 ⟨[]⟩ (List.not_mem_nil glueDBName)

/-- **C10.** When `godotenv.Load` fails, `init` terminates the process
fatally with "Error loading .env file" even if both required
environment variables are set and non-empty. -/
theorem envfile_load_failure_fatal (apiKeyV nbaEndpointV : String) (r : StepResults)
    (h1 : apiKeyV ≠ "") (h2 : nbaEndpointV ≠ "") :
    processModel false apiKeyV nbaEndpointV r
      = ([], .fatalStage "init" "Error loading .env file") := rfl

theorem envfile_load_failure_fatal_witness :
    processModel false "some-key" "http://example.com/nba"
        ⟨.ok (), .ok (), .ok (), .ok [], .ok (), .ok (), .ok ()⟩
      = ([], .fatalStage "init" "Error loading .env file") :=
  envfile_load_failure_fatal "some-key" "http://example.com/nba"
    ⟨.ok (), .ok (), .ok (), .ok [], .ok (), .ok (), .ok ()⟩
    (by decide) (by decide)

theorem mainModel_trace_cases (r : StepResults) :
    (mainModel r).1 ∈ ([[.cfgLoad],
      [.cfgLoad, .bucket],
      [.cfgLoad, .bucket, .pause, .glueDb],
      [.cfgLoad, .bucket, .pause, .glueDb, .fetch],
      [.cfgLoad, .bucket, .pause, .glueDb, .fetch, .upload],
      [.cfgLoad, .bucket, .pause, .glueDb, .fetch, .upload, .table],
      [.cfgLoad, .bucket, .pause, .glueDb, .fetch, .upload, .table, .athena],
      [.cfgLoad, .bucket, .pause, .glueDb, .fetch, .table],
      [.cfgLoad, .bucket, .pause, .glueDb, .fetch, .table, .athena]] :
        List (List StepTag)) := by
  rcases r with ⟨c, b, g, f, u, t, a⟩
  rcases c with ce | cu
  · simp [mainModel]
  · rcases b with be | bu
    · simp [mainModel]
    · rcases g with ge | gu
      · simp [mainModel]
      · rcases f with fe | data
        · simp [mainModel]
        · rcases data with _ | ⟨r0, data⟩
          · rcases t with te | tu
            · simp [mainModel]
            · rcases a with ae | au <;> simp [mainModel]
          · rcases u with ue | uu
            · simp [mainModel]
            · rcases t with te | tu
              · simp [mainModel]
              · rcases a with ae | au <;> simp [mainModel]

/-- **C7.** `main` executes its steps in the fixed source order
(configuration load, bucket, pause, database, fetch, upload, table,
query engine): every trace is an order-preserving selection from that
list with no step repeated (no retry), and an error at any step
terminates the run fatally at that step with that step's message and no
later step in the trace (no continuation, no rollback step). -/
theorem main_linear_fail_fast :
    (∀ r : StepResults, List.Sublist (mainModel r).1 canonicalOrder) ∧
    (∀ r : StepResults, (mainModel r).1.Nodup) ∧
    (∀ (r : StepResults) (e : String), r.cfgLoad = .error e →
      mainModel r = ([.cfgLoad], .fatalStage "Failed to load configuration" e)) ∧
    (∀ (r : StepResults) (e : String), r.cfgLoad = .ok () → r.bucket = .error e →
      mainModel r = ([.cfgLoad, .bucket], .fatalStage "Failed to create S3 bucket" e)) ∧
    (∀ (r : StepResults) (e : String), r.cfgLoad = .ok () → r.bucket = .ok () →
      r.glueDb = .error e →
      mainModel r = ([.cfgLoad, .bucket, .pause, .glueDb],
        .fatalStage "Failed to create Glue database" e)) ∧
    (∀ (r : StepResults) (e : String), r.cfgLoad = .ok () → r.bucket = .ok () →
      r.glueDb = .ok () → r.fetch = .error e →
      mainModel r = ([.cfgLoad, .bucket, .pause, .glueDb, .fetch],
        .fatalStage "Failed to fetch NBA data" e)) ∧
    (∀ (r : StepResults) (e : String) (data : List Record), r.cfgLoad = .ok () →
      r.bucket = .ok () → r.glueDb = .ok () → r.fetch = .ok data → data.length > 0 →
      r.upload = .error e →
      mainModel r = ([.cfgLoad, .bucket, .pause, .glueDb, .fetch, .upload],
        .fatalStage "Failed to upload data to S3" e)) ∧
    (∀ (r : StepResults) (e : String) (data : List Record), r.cfgLoad = .ok () →
      r.bucket = .ok () → r.glueDb = .ok () → r.fetch = .ok data →
      (data.length > 0 → r.upload = .ok ()) → r.table = .error e →
      mainModel r = ((if data.length > 0 then
          [.cfgLoad, .bucket, .pause, .glueDb, .fetch, .upload, .table]
        else [.cfgLoad, .bucket, .pause, .glueDb, .fetch, .table]),
        .fatalStage "Failed to create Glue table" e)) ∧
    (∀ (r : StepResults) (e : String) (data : List Record), r.cfgLoad = .ok () →
      r.bucket = .ok () → r.glueDb = .ok () → r.fetch = .ok data →
      (data.length > 0 → r.upload = .ok ()) → r.table = .ok () → r.athena = .error e →
      mainModel r = ((if data.length > 0 then canonicalOrder
        else [.cfgLoad, .bucket, .pause, .glueDb, .fetch, .table, .athena]),
        .fatalStage "Failed to configure Athena" e)) := by
  refine ⟨?_, ?_, ?_, ?_, ?_, ?_, ?_, ?_, ?_⟩
  · intro r
    have h := mainModel_trace_cases r
    simp only [List.mem_cons, List.not_mem_nil, or_false] at h
    rcases h with h | h | h | h | h | h | h | h | h <;> rw [h] <;> decide
  · intro r
    have h := mainModel_trace_cases r
    simp only [List.mem_cons, List.not_mem_nil, or_false] at h
    rcases h with h | h | h | h | h | h | h | h | h <;> rw [h] <;> decide
  · intro r e h1
    simp [mainModel, h1]
  · intro r e h1 h2
    simp [mainModel, h1, h2]
  · intro r e h1 h2 h3
    simp [mainModel, h1, h2, h3]
  · intro r e h1 h2 h3 h4
    simp [mainModel, h1, h2, h3, h4]
  · intro r e data h1 h2 h3 h4 hd h5
    simp [mainModel, h1, h2, h3, h4, hd, h5]
  · intro r e data h1 h2 h3 h4 hu h5
    by_cases hd : data.length > 0
    · simp [mainModel, h1, h2, h3, h4, hd, hu hd, h5]
    · simp [mainModel, h1, h2, h3, h4, hd, h5]
  · intro r e data h1 h2 h3 h4 hu h5 h6
    by_cases hd : data.length > 0
    · simp [mainModel, canonicalOrder, h1, h2, h3, h4, hd, hu hd, h5, h6]
    · simp [mainModel, h1, h2, h3, h4, hd, h5, h6]

theorem main_linear_fail_fast_witness :
    mainModel ⟨.ok (), .error "access denied", .ok (), .ok [], .ok (), .ok (), .ok ()⟩
      = ([.cfgLoad, .bucket], .fatalStage "Failed to create S3 bucket" "access denied") :=
  main_linear_fail_fast.2.2.2.1
    ⟨.ok (), .error "access denied", .ok (), .ok [], .ok (), .ok (), .ok ()⟩
    "access denied" rfl rfl
